import Mathlib

/-!
Shallow embedding of the profile-edit page of the HP repository
(`src/pages/ProfileEditPage.jsx`): the JavaScript value model needed by the
field-mapping code, the pure helpers (`normalizeRole`, `mapUserToForm`,
`isAllowedDocument`, `buildFormData`), the page state with its event handlers
(file selection, removal, load, submit), and theorems checking the
specification's claims about them.
-/

namespace HP

/-- Model of a JavaScript/JSON value as the server may return it.  Numbers are
modelled as integers: the page never does numeric arithmetic, it only tests
truthiness and converts values to strings, and no claim depends on float
behaviour. -/
inductive JSVal where
  | null
  | undefined
  | bool (b : Bool)
  | num (n : Int)
  | str (s : String)
  | arr (elems : List JSVal)
  | obj (fields : List (String × JSVal))

/-- JavaScript truthiness: `undefined`, `null`, `false`, `0` and `""` are
falsy, everything else (objects and arrays included) is truthy. -/
def jsTruthy : JSVal → Bool
  | .null => false
  | .undefined => false
  | .bool b => b
  | .num n => n != 0
  | .str s => s != ""
  | .arr _ => true
  | .obj _ => true

/-- `a || b` in JavaScript: the first operand if truthy, otherwise the
second. -/
def jsOr (a b : JSVal) : JSVal :=
  if jsTruthy a then a else b

/-- Optional-chaining property access `v?.key`: looks the key up in an object,
and yields `undefined` on every non-object (including `null`/`undefined`). -/
def jsGet (v : JSVal) (key : String) : JSVal :=
  match v with
  | .obj fields =>
    match fields.find? (fun p => p.1 == key) with
    | some p => p.2
    | none => .undefined
  | _ => .undefined

mutual

/-- `String(v)` conversion: arrays join their elements with `","`
(`null`/`undefined` elements become the empty string, as in
`Array.prototype.join`), plain objects print as `"[object Object]"`. -/
def jsToString : JSVal → String
  | .null => "null"
  | .undefined => "undefined"
  | .bool b => if b then "true" else "false"
  | .num n => toString n
  | .str s => s
  | .arr xs => jsArrJoin "," xs
  | .obj _ => "[object Object]"

/-- `Array.prototype.join(sep)`: elements converted with `String(...)`,
except `null`/`undefined` which contribute the empty string. -/
def jsArrJoin : String → List JSVal → String
  | _, [] => ""
  | sep, x :: rest =>
    let head :=
      match x with
      | .null => ""
      | .undefined => ""
      | v => jsToString v
    match rest with
    | [] => head
    | _ => head ++ sep ++ jsArrJoin sep rest

end

/-- `s.toLowerCase()`, character by character. -/
def jsToLower (s : String) : String :=
  String.mk (s.data.map Char.toLower)

/-- `s.trim()`: strip leading and trailing whitespace. -/
def jsTrimStr (s : String) : String :=
  String.mk (((s.data.dropWhile Char.isWhitespace).reverse.dropWhile
    Char.isWhitespace).reverse)

/-- `s.endsWith(suffix)`. -/
def jsEndsWith (s suffix : String) : Bool :=
  List.isSuffixOf suffix.data s.data

/-- Character-list worker for `String.prototype.includes`. -/
def strContains : List Char → List Char → Bool
  | [], pat => pat.isEmpty
  | c :: rest, pat => pat.isPrefixOf (c :: rest) || strContains rest pat

/-- `haystack.includes(needle)`. -/
def jsIncludes (haystack needle : String) : Bool :=
  strContains haystack.data needle.data

/-- Character-list worker for `s.split(',')`: cut at every comma, keeping
empty pieces. -/
def jsSplitComma : List Char → List Char → List String
  | [], acc => [String.mk acc.reverse]
  | c :: rest, acc =>
    if c = ',' then String.mk acc.reverse :: jsSplitComma rest []
    else jsSplitComma rest (c :: acc)

/-- `s.split(',')` as the page uses it on the skills text. -/
def jsSplitOnComma (s : String) : List String :=
  jsSplitComma s.data []

/-- `typeof v === 'object'`: true for `null`, arrays and plain objects. -/
def typeofIsObject : JSVal → Bool
  | .null => true
  | .arr _ => true
  | .obj _ => true
  | _ => false

/-- Whether the value is a JavaScript string. -/
def JSVal.isStr : JSVal → Bool
  | .str _ => true
  | _ => false

/-- Whether the value is an array (`Array.isArray`). -/
def JSVal.isArr : JSVal → Bool
  | .arr _ => true
  | _ => false

/-- `v.trim()`: defined on strings only; calling it on any other value throws
a `TypeError`, modelled as `none`. -/
def jsTrim : JSVal → Option String
  | .str s => some (jsTrimStr s)
  | _ => none

/-- Reading a value that must be a string to call string methods (`split`) on
it; any other value throws, modelled as `none`. -/
def jsAsString : JSVal → Option String
  | .str s => some s
  | _ => none

/-- One character of `JSON.stringify` string encoding: quote and backslash
are escaped, the control characters get their two-character escapes or a
`\u00XX` form, every other character stands for itself. -/
def jsonEscapeChar (c : Char) : String :=
  if c = '"' then "\\\""
  else if c = '\\' then "\\\\"
  else if c = Char.ofNat 8 then "\\b"
  else if c = Char.ofNat 9 then "\\t"
  else if c = Char.ofNat 10 then "\\n"
  else if c = Char.ofNat 12 then "\\f"
  else if c = Char.ofNat 13 then "\\r"
  else if c.toNat < 32 then
    let hexDigit : Nat → Char := fun n => if n < 10 then Char.ofNat (48 + n) else Char.ofNat (87 + n)
    "\\u00" ++ String.singleton (hexDigit (c.toNat / 16)) ++ String.singleton (hexDigit (c.toNat % 16))
  else String.singleton c

/-- `JSON.stringify` of one string value. -/
def jsonQuote (s : String) : String :=
  "\"" ++ String.join (s.data.map jsonEscapeChar) ++ "\""

/-- `JSON.stringify` of an array of strings. -/
def jsonStringifyStringArray (xs : List String) : String :=
  "[" ++ String.intercalate "," (xs.map jsonQuote) ++ "]"

/-- `normalizeRole` (ProfileEditPage.jsx line 59): `'ngo'` exactly when
`String(role || '').toLowerCase() === 'ngo'`, `'volunteer'` otherwise. -/
def normalizeRole (role : JSVal) : String :=
  if jsToLower (jsToString (jsOr role (.str ""))) = "ngo" then "ngo" else "volunteer"

/-- The form buffer.  `role` is always a plain string produced by
`normalizeRole` (or the default); every other field holds whatever JavaScript
value the mapping put there, which the code intends — but does not enforce —
to be a string. -/
structure Form where
  role : String
  fullName : JSVal
  email : JSVal
  phone : JSVal
  bio : JSVal
  skills : JSVal
  address : JSVal
  dateOfBirth : JSVal
  profileImageUrl : JSVal
  volunteerDocumentUrl : JSVal
  organizationName : JSVal
  registrationNumber : JSVal
  organizationAddress : JSVal
  organizationWebsite : JSVal
  contactPerson : JSVal
  organizationDescription : JSVal
  ngoProofDocumentUrl : JSVal

/-- `defaultForm` (lines 5-23): volunteer role, every other field the empty
string. -/
def defaultForm : Form where
  role := "volunteer"
  fullName := .str ""
  email := .str ""
  phone := .str ""
  bio := .str ""
  skills := .str ""
  address := .str ""
  dateOfBirth := .str ""
  profileImageUrl := .str ""
  volunteerDocumentUrl := .str ""
  organizationName := .str ""
  registrationNumber := .str ""
  organizationAddress := .str ""
  organizationWebsite := .str ""
  contactPerson := .str ""
  organizationDescription := .str ""
  ngoProofDocumentUrl := .str ""

/-- `mapUserToForm` (lines 63-86): maps a server user value into the form
buffer, tolerating several source field names per target via `||` chains
ending in `''`. -/
def mapUserToForm (user : JSVal) : Form where
  role := normalizeRole (jsGet user "role")
  fullName := jsOr (jsGet user "fullName") (jsOr (jsGet user "name") (.str ""))
  email := jsOr (jsGet user "email") (.str "")
  phone := jsOr (jsGet user "phone") (.str "")
  bio := jsOr (jsGet user "bio") (.str "")
  skills :=
    match jsGet user "skills" with
    | .arr xs => .str (jsArrJoin ", " xs)
    | _ => .str ""
  address := jsOr (jsGet user "address") (.str "")
  dateOfBirth := jsOr (jsGet user "dateOfBirth") (jsOr (jsGet user "dob") (.str ""))
  profileImageUrl := jsOr (jsGet user "profileImageUrl") (jsOr (jsGet user "avatarUrl") (.str ""))
  volunteerDocumentUrl :=
    jsOr (jsGet user "volunteerDocumentUrl")
      (jsOr (jsGet user "documentUrl") (jsOr (jsGet user "resumeUrl") (.str "")))
  organizationName :=
    jsOr (jsGet user "organizationName") (jsOr (jsGet (jsGet user "organization") "name") (.str ""))
  registrationNumber :=
    jsOr (jsGet user "registrationNumber")
      (jsOr (jsGet (jsGet user "organization") "registrationNumber") (.str ""))
  organizationAddress :=
    jsOr (jsGet user "organizationAddress")
      (jsOr (jsGet (jsGet user "organization") "address") (.str ""))
  organizationWebsite :=
    jsOr (jsGet user "organizationWebsite")
      (jsOr (jsGet (jsGet user "organization") "website") (.str ""))
  contactPerson :=
    jsOr (jsGet user "contactPerson")
      (jsOr (jsGet (jsGet user "organization") "contactPerson") (.str ""))
  organizationDescription :=
    jsOr (jsGet user "organizationDescription")
      (jsOr (jsGet (jsGet user "organization") "description") (.str ""))
  ngoProofDocumentUrl :=
    jsOr (jsGet user "ngoProofDocumentUrl")
      (jsOr (jsGet (jsGet user "organization") "proofDocumentUrl") (.str ""))

/-- A browser `File` as far as the page inspects it: its name and its MIME
type (the `type` property; `type` is a Lean keyword, hence the underscore). -/
structure File where
  name : String
  type_ : String
deriving DecidableEq

/-- The MIME allow-list of `isAllowedDocument` (line 302). -/
def allowedMimeTypes : List String :=
  ["application/pdf", "application/msword",
   "application/vnd.openxmlformats-officedocument.wordprocessingml.document"]

/-- `isAllowedDocument` (lines 301-305): MIME type in the allow-list OR a
lowercased filename ending in `.pdf`, `.doc` or `.docx`. -/
def isAllowedDocument (file : File) : Bool :=
  let lowerName := jsToLower file.name
  allowedMimeTypes.contains file.type_ || jsEndsWith lowerName ".pdf"
    || jsEndsWith lowerName ".doc" || jsEndsWith lowerName ".docx"

/-- One value of a multipart `FormData` entry: a string or a file.
`FormData.append` stringifies non-file, non-string values with
`String(...)`. -/
inductive FormValue where
  | str (value : String)
  | file (f : File)
deriving DecidableEq

/-- `buildFormData` (lines 138-187) as the ordered list of appended
`(name, value)` entries.  `.trim()`/`.split()` on a non-string buffer field
throws in JavaScript, modelled by `none`; `dateOfBirth` is appended without
`trim`, so `FormData.append` stringifies it instead. -/
def buildFormData (form : Form) (volunteerDocumentFile : Option File)
    (ngoProofFile : Option File) (removeVolunteerDocument : Bool)
    (removeNgoProofDocument : Bool) : Option (List (String × FormValue)) := do
  let fullName ← jsTrim form.fullName
  let email ← jsTrim form.email
  let phone ← jsTrim form.phone
  let bio ← jsTrim form.bio
  let address ← jsTrim form.address
  let profileImageUrl ← jsTrim form.profileImageUrl
  let base : List (String × FormValue) :=
    [("role", .str form.role), ("fullName", .str fullName), ("email", .str email),
     ("phone", .str phone), ("bio", .str bio), ("address", .str address),
     ("dateOfBirth", .str (jsToString form.dateOfBirth)),
     ("profileImageUrl", .str profileImageUrl)]
  let volunteerPart ←
    if form.role = "volunteer" then do
      let skillsText ← jsAsString form.skills
      let skillsJson :=
        jsonStringifyStringArray
          (((jsSplitOnComma skillsText).map jsTrimStr).filter (fun value => value != ""))
      pure ([("skills", FormValue.str skillsJson)]
        ++ (match volunteerDocumentFile with
            | some f => [("file", FormValue.file f)]
            | none => [])
        ++ (if removeVolunteerDocument then [("removeDocument", FormValue.str "true")] else []))
    else pure []
  let ngoPart ←
    if form.role = "ngo" then do
      let organizationName ← jsTrim form.organizationName
      let registrationNumber ← jsTrim form.registrationNumber
      let organizationAddress ← jsTrim form.organizationAddress
      let organizationWebsite ← jsTrim form.organizationWebsite
      let contactPerson ← jsTrim form.contactPerson
      let organizationDescription ← jsTrim form.organizationDescription
      pure ([("organizationName", FormValue.str organizationName),
        ("registrationNumber", FormValue.str registrationNumber),
        ("organizationAddress", FormValue.str organizationAddress),
        ("organizationWebsite", FormValue.str organizationWebsite),
        ("contactPerson", FormValue.str contactPerson),
        ("organizationDescription", FormValue.str organizationDescription)]
        ++ (match ngoProofFile with
            | some f => [("ngoProofFile", FormValue.file f)]
            | none => [])
        ++ (if removeNgoProofDocument then [("removeNgoProofDocument", FormValue.str "true")] else []))
    else pure []
  pure (base ++ volunteerPart ++ ngoPart)

/-- `roleLabel` (line 294): the role pill text. -/
def roleLabel (form : Form) : String :=
  if form.role = "ngo" then "NGO" else "Volunteer"

/-- The component state (lines 190-200) plus the two file-input DOM values,
which the handlers clear on rejected selections. -/
structure PageState where
  form : Form
  loading : Bool
  saving : Bool
  uploadProgress : Nat
  error : String
  success : String
  toast : String
  volunteerDocumentFile : Option File
  ngoProofFile : Option File
  removeVolunteerDocument : Bool
  removeNgoProofDocument : Bool
  volunteerInputValue : String
  ngoInputValue : String

/-- The state on first render: default form, loading, nothing selected. -/
def initialPageState : PageState where
  form := defaultForm
  loading := true
  saving := false
  uploadProgress := 0
  error := ""
  success := ""
  toast := ""
  volunteerDocumentFile := none
  ngoProofFile := none
  removeVolunteerDocument := false
  removeNgoProofDocument := false
  volunteerInputValue := ""
  ngoInputValue := ""

/-- `handleVolunteerFileChange` (lines 307-322).  `selected` is
`event.target.files?.[0] || null`; on rejection the handler sets the error
and clears the input control's value, on acceptance it clears the error,
stages the file and drops any pending removal flag. -/
def handleVolunteerFileChange (s : PageState) (selected : Option File) : PageState :=
  match selected with
  | none => s
  | some file =>
    if !isAllowedDocument file then
      { s with error := "Please upload a PDF or DOC file only.", volunteerInputValue := "" }
    else
      { s with error := "", volunteerDocumentFile := some file,
               removeVolunteerDocument := false }

/-- `handleNgoProofChange` (lines 324-339), the NGO-slot counterpart. -/
def handleNgoProofChange (s : PageState) (selected : Option File) : PageState :=
  match selected with
  | none => s
  | some file =>
    if !isAllowedDocument file then
      { s with error := "Please upload a PDF or DOC file only.", ngoInputValue := "" }
    else
      { s with error := "", ngoProofFile := some file,
               removeNgoProofDocument := false }

/-- `handleRemoveVolunteerFile` (lines 341-345): drop the staged file, blank
the persisted URL in the buffer, raise the removal flag. -/
def handleRemoveVolunteerFile (s : PageState) : PageState :=
  { s with volunteerDocumentFile := none,
           form := { s.form with volunteerDocumentUrl := .str "" },
           removeVolunteerDocument := true }

/-- `handleRemoveNgoProofFile` (lines 347-351), the NGO-slot counterpart. -/
def handleRemoveNgoProofFile (s : PageState) : PageState :=
  { s with ngoProofFile := none,
           form := { s.form with ngoProofDocumentUrl := .str "" },
           removeNgoProofDocument := true }

/-- Outcome of the initial `GET /users/me` as the effect observes it:
a rejected fetch (with the thrown error's message), or a response with its
`ok` flag, whether the content type is HTML, and the `readResponseJson`
result (`none` when the content type is not JSON or the body fails to
parse). -/
inductive LoadOutcome where
  | netError (message : String)
  | response (ok : Bool) (html : Bool) (body : Option JSVal)

/-- `loadCurrentProfile` (lines 215-257), for the mounted component: on a
well-formed profile object the buffer is replaced wholesale and all file
selections and flags reset; every failure turns into an error message. -/
def loadCurrentProfile (s : PageState) (out : LoadOutcome) : PageState :=
  let s0 := { s with loading := true, error := "" }
  let s1 :=
    match out with
    | .netError message => { s0 with error := message }
    | .response ok html body =>
      if !ok then
        if html then
          { s0 with error := "API not reachable. Set VITE_API_BASE_URL to your backend URL." }
        else
          { s0 with error := "Unable to fetch profile details." }
      else
        match body with
        | some user =>
          if jsTruthy user && typeofIsObject user then
            { s0 with form := mapUserToForm user,
                      volunteerDocumentFile := none, ngoProofFile := none,
                      removeVolunteerDocument := false, removeNgoProofDocument := false }
          else
            { s0 with error := "Invalid profile data from server." }
        | none => { s0 with error := "Invalid profile data from server." }
  { s1 with loading := false }

/-- Outcome of the `PUT /users/me` `XMLHttpRequest`: a network error, or the
resolved `{status, text, contentType}` object (lines 382-389). -/
inductive PutOutcome where
  | netError
  | loaded (status : Nat) (text : String) (contentType : String)

/-- Outcome of the post-save reconciliation `GET`: a rejected fetch, or a
response with its `ok` flag and the `readResponseJson` result. -/
inductive ReconOutcome where
  | netError
  | response (ok : Bool) (body : Option JSVal)

/-- The `serverMessage` expression (lines 413-416): the `message` property of
a truthy object-typed body when that property is a string, else `null`. -/
def serverMessage (body : Option JSVal) : Option String :=
  match body with
  | some b =>
    if jsTruthy b && typeofIsObject b then
      match jsGet b "message" with
      | .str m => some m
      | _ => none
    else none
  | none => none

/-- The state updates at the top of `handleSubmit` (lines 355-358): clear
both messages, mark saving, zero the progress. -/
def submitStart (s : PageState) : PageState :=
  { s with error := "", success := "", saving := true, uploadProgress := 0 }

/-- The `finally` block of `handleSubmit` (lines 461-464). -/
def submitFinish (s : PageState) : PageState :=
  { s with saving := false, uploadProgress := 0 }

/-- `setForm(mapUserToForm(u))` guarded by `u && typeof u === 'object'`
(lines 432-434 and 444-446). -/
def setFormIfWellFormed (s : PageState) (body : Option JSVal) : PageState :=
  match body with
  | some u => if jsTruthy u && typeofIsObject u then { s with form := mapUserToForm u } else s
  | none => s

/-- The non-success branch of `handleSubmit` (lines 401-423): HTML content
type wins, then a truthy server-provided `message`, then the generic text. -/
def submitFailureState (s0 : PageState) (text contentType : String)
    (parse : String → Option JSVal) : PageState :=
  if jsIncludes (jsToLower contentType) "text/html" then
    { s0 with error := "API not reachable. Set VITE_API_BASE_URL to your backend URL." }
  else
    let body := if text != "" then parse text else none
    match serverMessage body with
    | some m =>
      if m != "" then { s0 with error := m }
      else { s0 with error := "Profile update failed. Please try again." }
    | none => { s0 with error := "Profile update failed. Please try again." }

/-- The success branch of `handleSubmit` (lines 425-456): adopt the returned
representation when well-formed, best-effort reconciliation read (its
failures ignored), then clear selections and flags and set both success
texts. -/
def submitSuccessState (s0 : PageState) (text : String)
    (parse : String → Option JSVal) (recon : ReconOutcome) : PageState :=
  let updatedUser := if text != "" then parse text else none
  let s1 := setFormIfWellFormed s0 updatedUser
  let s2 :=
    match recon with
    | .netError => s1
    | .response rok rbody => if rok then setFormIfWellFormed s1 rbody else s1
  { s2 with volunteerDocumentFile := none, ngoProofFile := none,
            removeVolunteerDocument := false, removeNgoProofDocument := false,
            success := "Your profile has been updated successfully.",
            toast := "Profile updated successfully." }

/-- `handleSubmit` (lines 353-465) after the `XMLHttpRequest` completes.
`parse` models `JSON.parse` (`none` = throws); `recon` the follow-up read.
Transient upload-progress events are not part of the final state because the
`finally` block zeroes the progress either way. -/
def handleSubmit (s : PageState) (put : PutOutcome)
    (parse : String → Option JSVal) (recon : ReconOutcome) : PageState :=
  let s0 := submitStart s
  submitFinish <|
    match put with
    | .netError => { s0 with error := "Network error while updating profile." }
    | .loaded status text contentType =>
      if !(200 ≤ status && status < 300) then
        submitFailureState s0 text contentType parse
      else
        submitSuccessState s0 text parse recon

/-- The states reachable from first render by any sequence of load,
file-selection, removal and submit events. -/
inductive Reachable : PageState → Prop
  | init : Reachable initialPageState
  | load (s : PageState) (out : LoadOutcome) :
      Reachable s → Reachable (loadCurrentProfile s out)
  | selectVolunteer (s : PageState) (selected : Option File) :
      Reachable s → Reachable (handleVolunteerFileChange s selected)
  | selectNgo (s : PageState) (selected : Option File) :
      Reachable s → Reachable (handleNgoProofChange s selected)
  | removeVolunteer (s : PageState) :
      Reachable s → Reachable (handleRemoveVolunteerFile s)
  | removeNgo (s : PageState) :
      Reachable s → Reachable (handleRemoveNgoProofFile s)
  | submit (s : PageState) (put : PutOutcome) (parse : String → Option JSVal)
      (recon : ReconOutcome) :
      Reachable s → Reachable (handleSubmit s put parse recon)

/-- The specification's concrete skills example as a buffer state. -/
def c2ExampleForm : Form :=
  { defaultForm with skills := .str "Teaching, Event Management,  Fundraising,, " }

/-- A reachable state with a volunteer document on record, used by several
witnesses: a volunteer profile whose server record carries a document URL. -/
def c5ExampleState : PageState :=
  loadCurrentProfile initialPageState
    (.response true false (some (.obj
      [("role", .str "volunteer"),
       ("fullName", .str "Asha"),
       ("volunteerDocumentUrl", .str "https://example.com/docs/cv.pdf")])))

/-- The non-success PUT response of the C3 counterexample: HTTP 400, JSON
content type, body `{"message":""}`. -/
def c3Response : PutOutcome :=
  .loaded 400 "\x7b\"message\":\"\"\x7d" "application/json"

/-- `JSON.parse` on the C3 counterexample's body: an object whose `message`
property is the empty string. -/
def c3Parse : String → Option JSVal := fun t =>
  if t = "\x7b\"message\":\"\"\x7d" then some (.obj [("message", .str "")]) else none

/-- The reconciliation read failing: rejected fetch, non-OK status, or a
body that is missing or not a well-formed object. -/
def reconFailed (recon : ReconOutcome) : Prop :=
  match recon with
  | .netError => True
  | .response ok body =>
    ok = false ∨ body = none
      ∨ ∃ u, body = some u ∧ (jsTruthy u && typeofIsObject u) = false

/-- Every source value `mapUserToForm` copies verbatim into a (non-skills)
string-intended buffer field: the `||` chain candidates, top-level and under
`organization`. -/
def userStringCandidates (u : JSVal) : List JSVal :=
  [jsGet u "fullName", jsGet u "name", jsGet u "email", jsGet u "phone",
   jsGet u "bio", jsGet u "address", jsGet u "dateOfBirth", jsGet u "dob",
   jsGet u "profileImageUrl", jsGet u "avatarUrl",
   jsGet u "volunteerDocumentUrl", jsGet u "documentUrl", jsGet u "resumeUrl",
   jsGet u "organizationName", jsGet (jsGet u "organization") "name",
   jsGet u "registrationNumber", jsGet (jsGet u "organization") "registrationNumber",
   jsGet u "organizationAddress", jsGet (jsGet u "organization") "address",
   jsGet u "organizationWebsite", jsGet (jsGet u "organization") "website",
   jsGet u "contactPerson", jsGet (jsGet u "organization") "contactPerson",
   jsGet u "organizationDescription", jsGet (jsGet u "organization") "description",
   jsGet u "ngoProofDocumentUrl", jsGet (jsGet u "organization") "proofDocumentUrl"]

/-- All sixteen value-carrying buffer fields are JavaScript strings. -/
def formFieldsAreStrings (f : Form) : Prop :=
  f.fullName.isStr = true ∧ f.email.isStr = true ∧ f.phone.isStr = true
  ∧ f.bio.isStr = true ∧ f.skills.isStr = true ∧ f.address.isStr = true
  ∧ f.dateOfBirth.isStr = true ∧ f.profileImageUrl.isStr = true
  ∧ f.volunteerDocumentUrl.isStr = true ∧ f.organizationName.isStr = true
  ∧ f.registrationNumber.isStr = true ∧ f.organizationAddress.isStr = true
  ∧ f.organizationWebsite.isStr = true ∧ f.contactPerson.isStr = true
  ∧ f.organizationDescription.isStr = true ∧ f.ngoProofDocumentUrl.isStr = true

/-- A reachable state in which the volunteer slot has both a truthy remote
document reference and a staged local file: load a profile that carries a
document URL, then select a valid replacement file. -/
def c6BadState : PageState :=
  handleVolunteerFileChange c5ExampleState
    (some { name := "cv2.pdf", type_ := "application/pdf" })

/-!  Helper lemmas shared by the claim theorems. -/

/-- `normalizeRole` matches the characterization through
`String(v).toLowerCase()` directly: the `|| ''` fallback only kicks in for
falsy values, and falsy values stringify to `"null"`, `"undefined"`,
`"false"`, `"0"` or `""`, none of which lowercases to `"ngo"`. -/
theorem normalizeRole_eq_toLower (v : JSVal) :
    normalizeRole v = if jsToLower (jsToString v) = "ngo" then "ngo" else "volunteer" := by
  unfold normalizeRole jsOr
  by_cases h : jsTruthy v = true
  · rw [if_pos h]
  · rw [if_neg h]
    have hne : jsToLower (jsToString v) ≠ "ngo" := by
      cases v with
      | null => decide
      | undefined => decide
      | bool b =>
        have hb : b = false := by
          cases b
          · rfl
          · exact absurd rfl h
        subst hb; decide
      | num n =>
        have hn : n = 0 := by
          by_contra hne0
          exact h (by simp [jsTruthy, hne0])
        subst hn; decide
      | str t =>
        have ht : t = "" := by
          by_contra hne0
          exact h (by simp [jsTruthy, hne0])
        subst ht; decide
      | arr xs => exact absurd (by simp [jsTruthy]) h
      | obj fs => exact absurd (by simp [jsTruthy]) h
    rw [if_neg hne]
    decide

/-- `setForm(mapUserToForm(u))` under its well-formedness guard changes
nothing but the `form` field. -/
theorem setFormIfWellFormed_agrees (X : PageState) (u : Option JSVal) :
    setFormIfWellFormed X u = { X with form := (setFormIfWellFormed X u).form } := by
  cases u with
  | none => rfl
  | some x =>
    by_cases h : (jsTruthy x && typeofIsObject x) = true <;> simp [setFormIfWellFormed, h]

/-- Every non-success save leaves the started state unchanged except for one
non-empty error message. -/
theorem submitFailureState_shape (s0 : PageState) (text contentType : String)
    (parse : String → Option JSVal) :
    ∃ e, e ≠ "" ∧ submitFailureState s0 text contentType parse = { s0 with error := e } := by
  unfold submitFailureState
  by_cases hh : jsIncludes (jsToLower contentType) "text/html" = true
  · exact ⟨"API not reachable. Set VITE_API_BASE_URL to your backend URL.",
      by decide, by rw [if_pos hh]⟩
  · rw [if_neg hh]
    dsimp only
    generalize (if text != "" then parse text else none) = body
    cases hsm : serverMessage body with
    | none =>
      refine ⟨"Profile update failed. Please try again.", by decide, ?_⟩
      simp only [hsm]
    | some m =>
      by_cases hm : (m != "") = true
      · refine ⟨m, by simpa using hm, ?_⟩
        simp only [hsm]
        rw [if_pos hm]
      · refine ⟨"Profile update failed. Please try again.", by decide, ?_⟩
        simp only [hsm]
        rw [if_neg hm]

/-- Every successful save produces the started state with some buffer, no
selections, no flags, and the success texts. -/
theorem submitSuccessState_shape (s0 : PageState) (text : String)
    (parse : String → Option JSVal) (recon : ReconOutcome) :
    ∃ fm, submitSuccessState s0 text parse recon
      = { s0 with
            form := fm, volunteerDocumentFile := none, ngoProofFile := none,
            removeVolunteerDocument := false, removeNgoProofDocument := false,
            success := "Your profile has been updated successfully.",
            toast := "Profile updated successfully." } := by
  unfold submitSuccessState
  dsimp only
  generalize (if text != "" then parse text else none) = u
  have key : ∀ (Y : PageState) (w : Option JSVal), ∃ fm,
      setFormIfWellFormed Y w = { Y with form := fm } := by
    intro Y w
    exact ⟨(setFormIfWellFormed Y w).form, setFormIfWellFormed_agrees Y w⟩
  obtain ⟨f1, h1⟩ := key s0 u
  rw [h1]
  cases recon with
  | netError => exact ⟨f1, rfl⟩
  | response rok rbody =>
    cases rok with
    | false => exact ⟨f1, rfl⟩
    | true =>
      dsimp only
      obtain ⟨f2, h2⟩ := key { s0 with form := f1 } rbody
      rw [h2]
      exact ⟨f2, rfl⟩

/-- Every submission ends in one of two shapes: a failure that only sets a
non-empty error message on the started state, or the success shape. -/
theorem handleSubmit_shape (s : PageState) (put : PutOutcome)
    (parse : String → Option JSVal) (recon : ReconOutcome) :
    (∃ e, e ≠ "" ∧ handleSubmit s put parse recon
        = submitFinish { submitStart s with error := e })
    ∨ (∃ fm, handleSubmit s put parse recon
        = submitFinish { submitStart s with
            form := fm, volunteerDocumentFile := none, ngoProofFile := none,
            removeVolunteerDocument := false, removeNgoProofDocument := false,
            success := "Your profile has been updated successfully.",
            toast := "Profile updated successfully." }) := by
  cases put with
  | netError => exact .inl ⟨"Network error while updating profile.", by decide, rfl⟩
  | loaded status text contentType =>
    by_cases hok : (200 ≤ status && status < 300) = true
    · right
      obtain ⟨fm, hfm⟩ := submitSuccessState_shape (submitStart s) text parse recon
      exact ⟨fm, by simp [handleSubmit, hok, hfm]⟩
    · left
      obtain ⟨e, he, hfe⟩ := submitFailureState_shape (submitStart s) text contentType parse
      refine ⟨e, he, ?_⟩
      simp only [handleSubmit, Bool.not_eq_true] at hok ⊢
      rw [hok]
      simp [hfe]

/-!  The claim theorems. -/

/-- **C7**: for every server-supplied role value, the normalized role is
`'ngo'` exactly when the value, stringified and lowercased, equals `"ngo"`,
and `'volunteer'` for every other value (absence and `null` map through the
falsy fallback); the role pill text is `"NGO"` in the first case and
`"Volunteer"` otherwise. -/
theorem c7_role_normalization_and_pill (v : JSVal) (f : Form)
    (hf : f.role = normalizeRole v) :
    ((normalizeRole v = "ngo") ↔ jsToLower (jsToString v) = "ngo")
    ∧ (jsToLower (jsToString v) ≠ "ngo" → normalizeRole v = "volunteer")
    ∧ (normalizeRole v = "ngo" → roleLabel f = "NGO")
    ∧ (normalizeRole v ≠ "ngo" → roleLabel f = "Volunteer") := by
  have hn := normalizeRole_eq_toLower v
  by_cases h : jsToLower (jsToString v) = "ngo"
  · rw [if_pos h] at hn
    exact ⟨⟨fun _ => h, fun _ => hn⟩, fun hne => absurd h hne,
      fun _ => by simp [roleLabel, hf, hn],
      fun hne => absurd hn hne⟩
  · rw [if_neg h] at hn
    refine ⟨⟨fun hngo => ?_, fun hh => absurd hh h⟩, fun _ => hn,
      fun hngo => ?_, fun _ => by simp [roleLabel, hf, hn]⟩
    · rw [hn] at hngo; exact absurd hngo (by decide)
    · rw [hn] at hngo; exact absurd hngo (by decide)

/-- Witness for C7 at the concrete server role `"NgO"`. -/
theorem c7_witness :
    roleLabel { defaultForm with role := normalizeRole (JSVal.str "NgO") } = "NGO" :=
  (c7_role_normalization_and_pill (JSVal.str "NgO")
    { defaultForm with role := normalizeRole (JSVal.str "NgO") } rfl).2.2.1 (by decide)

/-- **C4**: a selected file failing both the MIME allow-list check and the
lowercased-extension check is rejected — the error becomes exactly
`'Please upload a PDF or DOC file only.'`, the file-input value is cleared,
and the slot's document reference, staged file and removal flag are
untouched (the result state differs only in those two components) — while a
file passing either check is accepted and staged.  Both slots behave
alike. -/
theorem c4_document_validation (s : PageState) (f : File) :
    ((f.type_ ∉ allowedMimeTypes ∧ jsEndsWith (jsToLower f.name) ".pdf" = false
        ∧ jsEndsWith (jsToLower f.name) ".doc" = false
        ∧ jsEndsWith (jsToLower f.name) ".docx" = false) →
      handleVolunteerFileChange s (some f)
          = { s with error := "Please upload a PDF or DOC file only.", volunteerInputValue := "" }
        ∧ handleNgoProofChange s (some f)
          = { s with error := "Please upload a PDF or DOC file only.", ngoInputValue := "" })
    ∧ ((f.type_ ∈ allowedMimeTypes ∨ jsEndsWith (jsToLower f.name) ".pdf" = true
        ∨ jsEndsWith (jsToLower f.name) ".doc" = true
        ∨ jsEndsWith (jsToLower f.name) ".docx" = true) →
      handleVolunteerFileChange s (some f)
          = { s with error := "", volunteerDocumentFile := some f, removeVolunteerDocument := false }
        ∧ handleNgoProofChange s (some f)
          = { s with error := "", ngoProofFile := some f, removeNgoProofDocument := false }) := by
  constructor
  · rintro ⟨hm, hp, hd, hx⟩
    have hall : isAllowedDocument f = false := by
      simp [isAllowedDocument, hm, hp, hd, hx]
    exact ⟨by simp [handleVolunteerFileChange, hall], by simp [handleNgoProofChange, hall]⟩
  · intro h
    have hall : isAllowedDocument f = true := by
      rcases h with h | h | h | h
      · simp [isAllowedDocument, h]
      · simp [isAllowedDocument, h]
      · simp [isAllowedDocument, h]
      · simp [isAllowedDocument, h]
    exact ⟨by simp [handleVolunteerFileChange, hall], by simp [handleNgoProofChange, hall]⟩

/-- Witness for C4 on the concrete rejected file `resume.exe`. -/
theorem c4_witness :
    handleVolunteerFileChange initialPageState
        (some { name := "resume.exe", type_ := "application/x-msdownload" })
      = { initialPageState with
          error := "Please upload a PDF or DOC file only.", volunteerInputValue := "" } :=
  ((c4_document_validation initialPageState
      { name := "resume.exe", type_ := "application/x-msdownload" }).1
    ⟨by decide, by decide, by decide, by decide⟩).1

/-- **C2**: for every skills text of a volunteer buffer, the payload's
`skills` entry is the JSON encoding of the comma-split entries, each
trimmed, with empty entries dropped; on the specification's concrete input
the encoding is `["Teaching","Event Management","Fundraising"]`. -/
theorem c2_skills_serialization (f : Form) (vF nF : Option File) (rV rN : Bool)
    (sk a b c d e g : String)
    (hrole : f.role = "volunteer") (hskills : f.skills = .str sk)
    (h1 : f.fullName = .str a) (h2 : f.email = .str b) (h3 : f.phone = .str c)
    (h4 : f.bio = .str d) (h5 : f.address = .str e) (h6 : f.profileImageUrl = .str g) :
    (∃ p, buildFormData f vF nF rV rN = some p ∧
      p.lookup "skills" = some (.str (jsonStringifyStringArray
        (((jsSplitOnComma sk).map jsTrimStr).filter (fun value => value != "")))))
    ∧ jsonStringifyStringArray
        (((jsSplitOnComma "Teaching, Event Management,  Fundraising,, ").map jsTrimStr).filter
          (fun value => value != ""))
      = "[\"Teaching\",\"Event Management\",\"Fundraising\"]" := by
  constructor
  · simp only [buildFormData, hrole, hskills, h1, h2, h3, h4, h5, h6, jsTrim, jsAsString,
      Option.bind_eq_bind, Option.some_bind, reduceIte]
    refine ⟨_, rfl, ?_⟩
    cases vF <;> cases rV <;> simp [List.lookup]
  · decide


/-- Witness for C2 at the specification's concrete skills text. -/
theorem c2_witness :
    ∃ p, buildFormData c2ExampleForm none none false false = some p ∧
      p.lookup "skills" = some (.str "[\"Teaching\",\"Event Management\",\"Fundraising\"]") := by
  obtain ⟨⟨p, hp, hl⟩, hc⟩ := c2_skills_serialization c2ExampleForm none none false false
    "Teaching, Event Management,  Fundraising,, " "" "" "" "" "" ""
    rfl rfl rfl rfl rfl rfl rfl rfl
  exact ⟨p, hp, by rw [hl, hc]⟩

/-- **C1**: for every buffer whose serialized fields are strings, the payload
contains exactly the eight common fields in order, plus for a volunteer the
`skills` entry, the `file` entry exactly when a file is staged and
`removeDocument` with value `"true"` exactly when the removal flag is set;
for an NGO the six organization fields, `ngoProofFile` exactly when staged
and `removeNgoProofDocument` with value `"true"` exactly when flagged; no
field of the opposite role's subset ever appears. -/
theorem c1_payload_exact_fields (f : Form) (vF nF : Option File) (rV rN : Bool)
    (a b c d e g : String)
    (h1 : f.fullName = .str a) (h2 : f.email = .str b) (h3 : f.phone = .str c)
    (h4 : f.bio = .str d) (h5 : f.address = .str e) (h6 : f.profileImageUrl = .str g) :
    (∀ sk, f.role = "volunteer" → f.skills = .str sk →
      ∃ p, buildFormData f vF nF rV rN = some p ∧
        p.map Prod.fst
          = ["role", "fullName", "email", "phone", "bio", "address", "dateOfBirth",
              "profileImageUrl", "skills"]
            ++ (if vF.isSome then ["file"] else [])
            ++ (if rV then ["removeDocument"] else [])
        ∧ (rV = true → p.lookup "removeDocument" = some (.str "true"))
        ∧ (rV = false → p.lookup "removeDocument" = none)
        ∧ (vF = none → p.lookup "file" = none))
    ∧ (∀ o1 o2 o3 o4 o5 o6, f.role = "ngo" →
        f.organizationName = .str o1 → f.registrationNumber = .str o2 →
        f.organizationAddress = .str o3 → f.organizationWebsite = .str o4 →
        f.contactPerson = .str o5 → f.organizationDescription = .str o6 →
      ∃ p, buildFormData f vF nF rV rN = some p ∧
        p.map Prod.fst
          = ["role", "fullName", "email", "phone", "bio", "address", "dateOfBirth",
              "profileImageUrl", "organizationName", "registrationNumber",
              "organizationAddress", "organizationWebsite", "contactPerson",
              "organizationDescription"]
            ++ (if nF.isSome then ["ngoProofFile"] else [])
            ++ (if rN then ["removeNgoProofDocument"] else [])
        ∧ (rN = true → p.lookup "removeNgoProofDocument" = some (.str "true"))
        ∧ (rN = false → p.lookup "removeNgoProofDocument" = none)
        ∧ (nF = none → p.lookup "ngoProofFile" = none)) := by
  constructor
  · intro sk hrole hskills
    simp only [buildFormData, hrole, hskills, h1, h2, h3, h4, h5, h6, jsTrim, jsAsString,
      Option.bind_eq_bind, Option.some_bind, reduceIte]
    refine ⟨_, rfl, ?_, ?_, ?_, ?_⟩ <;>
      cases vF <;> cases rV <;> simp [List.lookup]
  · intro o1 o2 o3 o4 o5 o6 hrole ho1 ho2 ho3 ho4 ho5 ho6
    simp only [buildFormData, hrole, ho1, ho2, ho3, ho4, ho5, ho6, h1, h2, h3, h4, h5, h6,
      jsTrim, jsAsString, Option.bind_eq_bind, Option.some_bind, reduceIte]
    refine ⟨_, rfl, ?_, ?_, ?_, ?_⟩ <;>
      cases nF <;> cases rN <;> simp [List.lookup]

/-- Witness for C1: a volunteer payload with a staged file and a raised
removal flag carries exactly the volunteer keys. -/
theorem c1_witness :
    ∃ p, buildFormData defaultForm (some { name := "cv.pdf", type_ := "application/pdf" })
        none true false = some p ∧
      p.map Prod.fst
        = ["role", "fullName", "email", "phone", "bio", "address", "dateOfBirth",
            "profileImageUrl", "skills", "file", "removeDocument"] := by
  obtain ⟨p, hp, hk, _⟩ := (c1_payload_exact_fields defaultForm
      (some { name := "cv.pdf", type_ := "application/pdf" }) none true false
      "" "" "" "" "" "" rfl rfl rfl rfl rfl rfl).1 "" rfl rfl
  exact ⟨p, hp, by rw [hk]; rfl⟩

/-- **C5**: with a remote document present, the Remove action blanks the
slot's persisted URL, drops any staged local file and raises the removal
flag, so that the next payload built from the resulting state carries the
removal field with the literal `"true"` and no file field for that slot;
both slots behave alike (each is removable only while its role section is
rendered). -/
theorem c5_remove_action (st : PageState) (a b c d e g : String)
    (h1 : st.form.fullName = .str a) (h2 : st.form.email = .str b)
    (h3 : st.form.phone = .str c) (h4 : st.form.bio = .str d)
    (h5 : st.form.address = .str e) (h6 : st.form.profileImageUrl = .str g) :
    (∀ sk, st.form.role = "volunteer" → st.form.skills = .str sk →
      jsTruthy st.form.volunteerDocumentUrl = true →
      (handleRemoveVolunteerFile st).form.volunteerDocumentUrl = .str ""
      ∧ (handleRemoveVolunteerFile st).volunteerDocumentFile = none
      ∧ (handleRemoveVolunteerFile st).removeVolunteerDocument = true
      ∧ ∃ p, buildFormData (handleRemoveVolunteerFile st).form
            (handleRemoveVolunteerFile st).volunteerDocumentFile
            (handleRemoveVolunteerFile st).ngoProofFile
            (handleRemoveVolunteerFile st).removeVolunteerDocument
            (handleRemoveVolunteerFile st).removeNgoProofDocument = some p
          ∧ p.lookup "removeDocument" = some (.str "true")
          ∧ p.lookup "file" = none)
    ∧ (∀ o1 o2 o3 o4 o5 o6, st.form.role = "ngo" →
        st.form.organizationName = .str o1 → st.form.registrationNumber = .str o2 →
        st.form.organizationAddress = .str o3 → st.form.organizationWebsite = .str o4 →
        st.form.contactPerson = .str o5 → st.form.organizationDescription = .str o6 →
        jsTruthy st.form.ngoProofDocumentUrl = true →
      (handleRemoveNgoProofFile st).form.ngoProofDocumentUrl = .str ""
      ∧ (handleRemoveNgoProofFile st).ngoProofFile = none
      ∧ (handleRemoveNgoProofFile st).removeNgoProofDocument = true
      ∧ ∃ p, buildFormData (handleRemoveNgoProofFile st).form
            (handleRemoveNgoProofFile st).volunteerDocumentFile
            (handleRemoveNgoProofFile st).ngoProofFile
            (handleRemoveNgoProofFile st).removeVolunteerDocument
            (handleRemoveNgoProofFile st).removeNgoProofDocument = some p
          ∧ p.lookup "removeNgoProofDocument" = some (.str "true")
          ∧ p.lookup "ngoProofFile" = none) := by
  constructor
  · intro sk hrole hskills _
    refine ⟨rfl, rfl, rfl, ?_⟩
    simp only [handleRemoveVolunteerFile]
    simp only [buildFormData, hrole, hskills, h1, h2, h3, h4, h5, h6, jsTrim, jsAsString,
      Option.bind_eq_bind, Option.some_bind, reduceIte]
    exact ⟨_, rfl, by simp [List.lookup], by simp [List.lookup]⟩
  · intro o1 o2 o3 o4 o5 o6 hrole ho1 ho2 ho3 ho4 ho5 ho6 _
    refine ⟨rfl, rfl, rfl, ?_⟩
    simp only [handleRemoveNgoProofFile]
    simp only [buildFormData, hrole, ho1, ho2, ho3, ho4, ho5, ho6, h1, h2, h3, h4, h5, h6,
      jsTrim, jsAsString, Option.bind_eq_bind, Option.some_bind, reduceIte]
    exact ⟨_, rfl, by simp [List.lookup], by simp [List.lookup]⟩


/-- Witness for C5: removing the loaded volunteer document yields a payload
with `removeDocument = "true"` and no `file` entry. -/
theorem c5_witness :
    (handleRemoveVolunteerFile c5ExampleState).removeVolunteerDocument = true
    ∧ ∃ p, buildFormData (handleRemoveVolunteerFile c5ExampleState).form
          (handleRemoveVolunteerFile c5ExampleState).volunteerDocumentFile
          (handleRemoveVolunteerFile c5ExampleState).ngoProofFile
          (handleRemoveVolunteerFile c5ExampleState).removeVolunteerDocument
          (handleRemoveVolunteerFile c5ExampleState).removeNgoProofDocument = some p
        ∧ p.lookup "removeDocument" = some (.str "true")
        ∧ p.lookup "file" = none := by
  obtain ⟨-, -, hflag, hpay⟩ := (c5_remove_action c5ExampleState
      "Asha" "" "" "" "" "" rfl rfl rfl rfl rfl rfl).1 "" rfl rfl (by decide)
  exact ⟨hflag, hpay⟩

/-- **C9**: each submission attempt clears both messages and zeroes the
progress at its start; when it completes the progress is zero again and at
most one of the error and success messages is non-empty. -/
theorem c9_submit_message_and_progress (s : PageState) (put : PutOutcome)
    (parse : String → Option JSVal) (recon : ReconOutcome) :
    (submitStart s).error = "" ∧ (submitStart s).success = ""
    ∧ (submitStart s).uploadProgress = 0
    ∧ (handleSubmit s put parse recon).uploadProgress = 0
    ∧ ((handleSubmit s put parse recon).error = ""
        ∨ (handleSubmit s put parse recon).success = "") := by
  refine ⟨rfl, rfl, rfl, ?_, ?_⟩
  · rcases handleSubmit_shape s put parse recon with ⟨e, -, he⟩ | ⟨fm, hf⟩
    · rw [he]; rfl
    · rw [hf]; rfl
  · rcases handleSubmit_shape s put parse recon with ⟨e, -, he⟩ | ⟨fm, hf⟩
    · rw [he]; right; rfl
    · rw [hf]; left; rfl



/-- Counterexample to C3 as stated: the body parses as a JSON object whose
`message` field is a string (the empty string), yet the error shown is the
generic failure text, not that string — the code's `if (serverMessage)`
treats the empty message as absent. -/
theorem c3_counterexample :
    (handleSubmit initialPageState c3Response c3Parse .netError).error
      = "Profile update failed. Please try again."
    ∧ ¬ (handleSubmit initialPageState c3Response c3Parse .netError).error = "" := by
  constructor
  · rfl
  · intro h
    exact absurd ((rfl :
      (handleSubmit initialPageState c3Response c3Parse .netError).error
        = "Profile update failed. Please try again.") ▸ h) (by decide)

/-- **C3 (amended)**: for a save completing with a non-success status, an
HTML content type forces the configuration message regardless of body;
otherwise a parsed JSON object body whose `message` field is a *non-empty*
string is surfaced verbatim; in every other case — no string message or the
empty-string message — the generic failure text is shown. -/
theorem c3_failure_messages (s : PageState) (parse : String → Option JSVal)
    (recon : ReconOutcome) (status : Nat) (text contentType : String)
    (hok : (200 ≤ status && status < 300) = false) :
    (jsIncludes (jsToLower contentType) "text/html" = true →
      (handleSubmit s (.loaded status text contentType) parse recon).error
        = "API not reachable. Set VITE_API_BASE_URL to your backend URL.")
    ∧ (∀ m, jsIncludes (jsToLower contentType) "text/html" = false →
        serverMessage (if text != "" then parse text else none) = some m → m ≠ "" →
        (handleSubmit s (.loaded status text contentType) parse recon).error = m)
    ∧ (jsIncludes (jsToLower contentType) "text/html" = false →
        (serverMessage (if text != "" then parse text else none) = none
          ∨ serverMessage (if text != "" then parse text else none) = some "") →
        (handleSubmit s (.loaded status text contentType) parse recon).error
          = "Profile update failed. Please try again.") := by
  have hred : handleSubmit s (.loaded status text contentType) parse recon
      = submitFinish (submitFailureState (submitStart s) text contentType parse) := by
    simp [handleSubmit, hok]
  refine ⟨?_, ?_, ?_⟩
  · intro hhtml
    rw [hred]
    unfold submitFailureState
    rw [if_pos hhtml]
    rfl
  · intro m hhtml hsm hm
    rw [hred]
    unfold submitFailureState
    rw [if_neg (by simp [hhtml])]
    dsimp only
    simp only [hsm]
    rw [if_pos (by simpa using hm)]
    rfl
  · intro hhtml hsm
    rw [hred]
    unfold submitFailureState
    rw [if_neg (by simp [hhtml])]
    dsimp only
    rcases hsm with hsm | hsm
    · simp only [hsm]
      rfl
    · simp only [hsm]
      rw [if_neg (by simp)]
      rfl

/-- Witness for the amended C3 at a concrete non-empty server message. -/
theorem c3_witness :
    (handleSubmit initialPageState
        (.loaded 400 "body" "application/json")
        (fun _ => some (.obj [("message", .str "Email already in use")]))
        .netError).error
      = "Email already in use" :=
  (c3_failure_messages initialPageState
      (fun _ => some (.obj [("message", .str "Email already in use")]))
      .netError 400 "body" "application/json" (by decide)).2.1
    "Email already in use" (by decide) (by decide) (by decide)


/-- **C8**: when the save succeeds but the follow-up reconciliation read
fails in any way, the failure is silently swallowed: no error is set, the
buffer keeps the representation adopted from the save response (when
well-formed), the selections and removal flags are cleared, and the success
message and toast are shown. -/
theorem c8_reconciliation_failure_ignored (s : PageState) (status : Nat)
    (text contentType : String) (parse : String → Option JSVal)
    (recon : ReconOutcome) (hok : (200 ≤ status && status < 300) = true)
    (hrecon : reconFailed recon) :
    (handleSubmit s (.loaded status text contentType) parse recon).error = ""
    ∧ (handleSubmit s (.loaded status text contentType) parse recon).success
        = "Your profile has been updated successfully."
    ∧ (handleSubmit s (.loaded status text contentType) parse recon).toast
        = "Profile updated successfully."
    ∧ (handleSubmit s (.loaded status text contentType) parse recon).volunteerDocumentFile = none
    ∧ (handleSubmit s (.loaded status text contentType) parse recon).ngoProofFile = none
    ∧ (handleSubmit s (.loaded status text contentType) parse recon).removeVolunteerDocument = false
    ∧ (handleSubmit s (.loaded status text contentType) parse recon).removeNgoProofDocument = false
    ∧ (handleSubmit s (.loaded status text contentType) parse recon).form
        = (setFormIfWellFormed (submitStart s)
            (if text != "" then parse text else none)).form := by
  have hred : handleSubmit s (.loaded status text contentType) parse recon
      = submitFinish (submitSuccessState (submitStart s) text parse recon) := by
    simp [handleSubmit, hok]
  have hss : submitSuccessState (submitStart s) text parse recon
      = { setFormIfWellFormed (submitStart s) (if text != "" then parse text else none) with
          volunteerDocumentFile := none, ngoProofFile := none,
          removeVolunteerDocument := false, removeNgoProofDocument := false,
          success := "Your profile has been updated successfully.",
          toast := "Profile updated successfully." } := by
    unfold submitSuccessState
    dsimp only
    cases recon with
    | netError => rfl
    | response rok rbody =>
      rcases hrecon with h | h | ⟨u, hu, hwf⟩
      · rw [h]; rfl
      · rw [h]; cases rok <;> rfl
      · rw [hu]; cases rok with
        | false => rfl
        | true =>
          dsimp only
          simp [setFormIfWellFormed, hwf]
  rw [hred, hss]
  refine ⟨?_, rfl, rfl, rfl, rfl, rfl, rfl, rfl⟩
  rw [setFormIfWellFormed_agrees]
  rfl

/-- Witness for C8: successful save with empty body, reconciliation fetch
rejected. -/
theorem c8_witness :
    (handleSubmit initialPageState (.loaded 200 "" "application/json")
        (fun _ => none) .netError).success
      = "Your profile has been updated successfully."
    ∧ (handleSubmit initialPageState (.loaded 200 "" "application/json")
        (fun _ => none) .netError).error = "" := by
  have h := c8_reconciliation_failure_ignored initialPageState 200 "" "application/json"
    (fun _ => none) .netError (by decide) trivial
  exact ⟨h.2.1, h.1⟩



/-- A `||` chain stays a string when its left operand is a string or falsy
and its right operand is a string. -/
theorem jsOr_isStr (a b : JSVal) (ha : a.isStr = true ∨ jsTruthy a = false)
    (hb : b.isStr = true) : (jsOr a b).isStr = true := by
  unfold jsOr
  by_cases h : jsTruthy a = true
  · rw [if_pos h]
    rcases ha with ha | ha
    · exact ha
    · rw [ha] at h
      exact absurd h (by decide)
  · rw [if_neg h]
    exact hb

/-- A `||` chain skips a falsy left operand. -/
theorem jsOr_falsy (a b : JSVal) (ha : jsTruthy a = false) : jsOr a b = b := by
  unfold jsOr
  rw [if_neg (by simp [ha])]

/-- The mapped skills field is always a string: a join for arrays, `''`
otherwise. -/
theorem mapUserToForm_skills_isStr (u : JSVal) :
    JSVal.isStr (mapUserToForm u).skills = true := by
  cases hsk : jsGet u "skills" <;> simp [mapUserToForm, hsk, JSVal.isStr]

/-- Counterexample to C10 as stated: a server object whose `fullName` is the
number `5` is copied into the buffer verbatim — the buffer field is not a
string. -/
theorem c10_counterexample :
    (mapUserToForm (JSVal.obj [("fullName", JSVal.num 5)])).fullName = JSVal.num 5
    ∧ JSVal.isStr (mapUserToForm (JSVal.obj [("fullName", JSVal.num 5)])).fullName = false :=
  ⟨rfl, rfl⟩

/-- **C10 (amended)**: the mapping is total; the role is always one of the
two enum values; the skills field is always a string and is `''` whenever
the source `skills` is not an array; every other buffer field takes the
first truthy source candidate verbatim — hence every field is a string
whenever each recognized source candidate is a string or falsy/absent, and
every field defaults to `''` when no recognized candidate is truthy.  (A
truthy non-string candidate is passed through unchanged, so the claim's
unconditional well-typedness fails.) -/
theorem c10_map_user_to_form_typing (u : JSVal) :
    ((mapUserToForm u).role = "volunteer" ∨ (mapUserToForm u).role = "ngo")
    ∧ JSVal.isStr (mapUserToForm u).skills = true
    ∧ (JSVal.isArr (jsGet u "skills") = false → (mapUserToForm u).skills = .str "")
    ∧ ((∀ v ∈ userStringCandidates u, v.isStr = true ∨ jsTruthy v = false) →
        formFieldsAreStrings (mapUserToForm u))
    ∧ ((∀ v ∈ userStringCandidates u, jsTruthy v = false) →
        (mapUserToForm u).fullName = .str "" ∧ (mapUserToForm u).email = .str ""
        ∧ (mapUserToForm u).phone = .str "" ∧ (mapUserToForm u).bio = .str ""
        ∧ (mapUserToForm u).address = .str "" ∧ (mapUserToForm u).dateOfBirth = .str ""
        ∧ (mapUserToForm u).profileImageUrl = .str ""
        ∧ (mapUserToForm u).volunteerDocumentUrl = .str ""
        ∧ (mapUserToForm u).organizationName = .str ""
        ∧ (mapUserToForm u).registrationNumber = .str ""
        ∧ (mapUserToForm u).organizationAddress = .str ""
        ∧ (mapUserToForm u).organizationWebsite = .str ""
        ∧ (mapUserToForm u).contactPerson = .str ""
        ∧ (mapUserToForm u).organizationDescription = .str ""
        ∧ (mapUserToForm u).ngoProofDocumentUrl = .str "") := by
  refine ⟨?_, mapUserToForm_skills_isStr u, ?_, ?_, ?_⟩
  · by_cases h : jsToLower (jsToString (jsOr (jsGet u "role") (.str ""))) = "ngo"
    · right; simp [mapUserToForm, normalizeRole, h]
    · left; simp [mapUserToForm, normalizeRole, h]
  · intro hna
    cases hsk : jsGet u "skills" with
    | arr xs => rw [hsk] at hna; exact absurd hna (by simp [JSVal.isArr])
    | null => simp [mapUserToForm, hsk]
    | undefined => simp [mapUserToForm, hsk]
    | bool b => simp [mapUserToForm, hsk]
    | num n => simp [mapUserToForm, hsk]
    | str t => simp [mapUserToForm, hsk]
    | obj fs => simp [mapUserToForm, hsk]
  · intro h
    have k : ∀ v ∈ userStringCandidates u, v.isStr = true ∨ jsTruthy v = false := h
    refine ⟨?_, ?_, ?_, ?_, mapUserToForm_skills_isStr u, ?_, ?_, ?_, ?_, ?_, ?_, ?_, ?_, ?_, ?_, ?_⟩
    · exact jsOr_isStr _ _ (k _ (by simp [userStringCandidates]))
        (jsOr_isStr _ _ (k _ (by simp [userStringCandidates])) rfl)
    · exact jsOr_isStr _ _ (k _ (by simp [userStringCandidates])) rfl
    · exact jsOr_isStr _ _ (k _ (by simp [userStringCandidates])) rfl
    · exact jsOr_isStr _ _ (k _ (by simp [userStringCandidates])) rfl
    · exact jsOr_isStr _ _ (k _ (by simp [userStringCandidates])) rfl
    · exact jsOr_isStr _ _ (k _ (by simp [userStringCandidates]))
        (jsOr_isStr _ _ (k _ (by simp [userStringCandidates])) rfl)
    · exact jsOr_isStr _ _ (k _ (by simp [userStringCandidates]))
        (jsOr_isStr _ _ (k _ (by simp [userStringCandidates])) rfl)
    · exact jsOr_isStr _ _ (k _ (by simp [userStringCandidates]))
        (jsOr_isStr _ _ (k _ (by simp [userStringCandidates]))
          (jsOr_isStr _ _ (k _ (by simp [userStringCandidates])) rfl))
    · exact jsOr_isStr _ _ (k _ (by simp [userStringCandidates]))
        (jsOr_isStr _ _ (k _ (by simp [userStringCandidates])) rfl)
    · exact jsOr_isStr _ _ (k _ (by simp [userStringCandidates]))
        (jsOr_isStr _ _ (k _ (by simp [userStringCandidates])) rfl)
    · exact jsOr_isStr _ _ (k _ (by simp [userStringCandidates]))
        (jsOr_isStr _ _ (k _ (by simp [userStringCandidates])) rfl)
    · exact jsOr_isStr _ _ (k _ (by simp [userStringCandidates]))
        (jsOr_isStr _ _ (k _ (by simp [userStringCandidates])) rfl)
    · exact jsOr_isStr _ _ (k _ (by simp [userStringCandidates]))
        (jsOr_isStr _ _ (k _ (by simp [userStringCandidates])) rfl)
    · exact jsOr_isStr _ _ (k _ (by simp [userStringCandidates]))
        (jsOr_isStr _ _ (k _ (by simp [userStringCandidates])) rfl)
    · exact jsOr_isStr _ _ (k _ (by simp [userStringCandidates]))
        (jsOr_isStr _ _ (k _ (by simp [userStringCandidates])) rfl)
  · intro h
    have k : ∀ v ∈ userStringCandidates u, jsTruthy v = false := h
    refine ⟨?_, ?_, ?_, ?_, ?_, ?_, ?_, ?_, ?_, ?_, ?_, ?_, ?_, ?_, ?_⟩ <;>
      · show jsOr _ _ = JSVal.str ""
        repeat rw [jsOr_falsy _ _ (k _ (by simp [userStringCandidates]))]

/-- Witness for the amended C10 at a user object with string and absent
fields. -/
theorem c10_witness :
    formFieldsAreStrings (mapUserToForm (JSVal.obj
      [("role", .str "NGO"), ("name", .str "Helping Hands"),
       ("organization", .obj [("website", .str "https://ngo.org")])])) :=
  (c10_map_user_to_form_typing (JSVal.obj
      [("role", .str "NGO"), ("name", .str "Helping Hands"),
       ("organization", .obj [("website", .str "https://ngo.org")])])).2.2.2.1
    (by decide)

/-- In every reachable state, a raised removal flag implies the slot has no
staged file and no truthy remote reference.  (The converse pairs are not
exclusive: a remote reference and a staged replacement file coexist.) -/
theorem reachable_flag_exclusive (s : PageState) (h : Reachable s) :
    (s.removeVolunteerDocument = true →
      s.volunteerDocumentFile = none ∧ jsTruthy s.form.volunteerDocumentUrl = false)
    ∧ (s.removeNgoProofDocument = true →
      s.ngoProofFile = none ∧ jsTruthy s.form.ngoProofDocumentUrl = false) := by
  induction h with
  | init => exact ⟨fun hh => absurd hh (by decide), fun hh => absurd hh (by decide)⟩
  | load s out hr ih =>
    rcases out with ⟨m⟩ | ⟨ok, html, body⟩
    · simpa [loadCurrentProfile] using ih
    · cases ok with
      | false => cases html <;> simpa [loadCurrentProfile] using ih
      | true =>
        rcases body with _ | u
        · simpa [loadCurrentProfile] using ih
        · by_cases hu : (jsTruthy u && typeofIsObject u) = true
          · simp [loadCurrentProfile, hu]
          · simpa [loadCurrentProfile, hu] using ih
  | selectVolunteer s sel hr ih =>
    rcases sel with _ | f
    · simpa [handleVolunteerFileChange] using ih
    · by_cases hall : isAllowedDocument f = true
      · refine ⟨by simp [handleVolunteerFileChange, hall], ?_⟩
        simpa [handleVolunteerFileChange, hall] using ih.2
      · simpa [handleVolunteerFileChange, hall] using ih
  | selectNgo s sel hr ih =>
    rcases sel with _ | f
    · simpa [handleNgoProofChange] using ih
    · by_cases hall : isAllowedDocument f = true
      · refine ⟨?_, by simp [handleNgoProofChange, hall]⟩
        simpa [handleNgoProofChange, hall] using ih.1
      · simpa [handleNgoProofChange, hall] using ih
  | removeVolunteer s hr ih =>
    refine ⟨fun _ => ⟨rfl, rfl⟩, ?_⟩
    simpa [handleRemoveVolunteerFile] using ih.2
  | removeNgo s hr ih =>
    refine ⟨?_, fun _ => ⟨rfl, rfl⟩⟩
    simpa [handleRemoveNgoProofFile] using ih.1
  | submit s put parse recon hr ih =>
    rcases handleSubmit_shape s put parse recon with ⟨e, -, he⟩ | ⟨fm, hf⟩
    · rw [he]
      simpa [submitFinish, submitStart] using ih
    · rw [hf]
      simp [submitFinish]


/-- Counterexample to C6 as stated: after loading a profile with a document
URL and selecting a valid replacement file, the remote reference and the
local file are both active at once, so at most one of the three indicators
being active fails. -/
theorem c6_counterexample :
    Reachable c6BadState
    ∧ jsTruthy c6BadState.form.volunteerDocumentUrl = true
    ∧ c6BadState.volunteerDocumentFile.isSome = true := by
  refine ⟨?_, by decide, by decide⟩
  exact Reachable.selectVolunteer _ _ (Reachable.load _ _ Reachable.init)

/-- **C6 (amended)**: in every reachable state, a raised removal flag
excludes both the staged file and a truthy remote reference for its slot
(but a remote reference and a staged replacement file may coexist until
submit); accepting a newly selected file clears the slot's pending removal
flag, and triggering removal clears both the remote reference and any
pending local file. -/
theorem c6_slot_state_invariant (s : PageState) (h : Reachable s) :
    (s.removeVolunteerDocument = true →
      s.volunteerDocumentFile = none ∧ jsTruthy s.form.volunteerDocumentUrl = false)
    ∧ (s.removeNgoProofDocument = true →
      s.ngoProofFile = none ∧ jsTruthy s.form.ngoProofDocumentUrl = false)
    ∧ (∀ f, isAllowedDocument f = true →
        (handleVolunteerFileChange s (some f)).removeVolunteerDocument = false
        ∧ (handleNgoProofChange s (some f)).removeNgoProofDocument = false)
    ∧ ((handleRemoveVolunteerFile s).volunteerDocumentFile = none
        ∧ (handleRemoveVolunteerFile s).form.volunteerDocumentUrl = .str ""
        ∧ (handleRemoveVolunteerFile s).removeVolunteerDocument = true)
    ∧ ((handleRemoveNgoProofFile s).ngoProofFile = none
        ∧ (handleRemoveNgoProofFile s).form.ngoProofDocumentUrl = .str ""
        ∧ (handleRemoveNgoProofFile s).removeNgoProofDocument = true) := by
  refine ⟨(reachable_flag_exclusive s h).1, (reachable_flag_exclusive s h).2, ?_,
    ⟨rfl, rfl, rfl⟩, ⟨rfl, rfl, rfl⟩⟩
  intro f hall
  exact ⟨by simp [handleVolunteerFileChange, hall], by simp [handleNgoProofChange, hall]⟩

/-- Witness for the amended C6 at the initial state. -/
theorem c6_witness :
    (handleRemoveVolunteerFile initialPageState).removeVolunteerDocument = true :=
  (c6_slot_state_invariant initialPageState Reachable.init).2.2.2.1.2.2

end HP
